import Mathlib

/-!
Shallow embedding of `tracing-actix-web` (src/lib.rs): the `TracingLogger`
middleware factory, its `TracingLoggerMiddleware` wrapper, and the wrapper's
`poll_ready` / `call` operations.  External collaborators (the actix-web
request/response types, header map, `uuid::Uuid::new_v4`, and the
`tracing_futures::Instrument` combinator) are modelled at the boundary,
faithful to their documented behaviour where the source relies on it.
-/

namespace TracingActixWeb

/-- An HTTP header value.  `to_str` is `http::HeaderValue::to_str().ok()`:
`some s` when the bytes decode as visible-ASCII text, `none` otherwise. -/
structure HeaderValue where
  to_str : Option String
deriving DecidableEq, Repr

/-- `actix_web::dev::ServiceRequest`, restricted to what `lib.rs` reads:
the path, the method, the header map, the router's matched pattern
(`match_pattern()`), and the typed extension slot for a `Span` handle
(`extensions_mut().insert(span.clone())` stores a handle; we store the
span's id, handles being shared references to one underlying span). -/
structure ServiceRequest where
  path : String
  method : String
  headers : List (String × HeaderValue)
  match_pattern : Option String
  extensions : Option Nat
deriving DecidableEq, Repr

/-- Lower-case an ASCII code point. -/
def asciiLower (n : Nat) : Nat := if 65 ≤ n ∧ n ≤ 90 then n + 32 else n

/-- Header-name equality is case-insensitive, as in `http::HeaderMap`. -/
def headerNameEq (a b : String) : Bool :=
  a.data.map (fun c => asciiLower c.toNat) == b.data.map (fun c => asciiLower c.toNat)

/-- `HeaderMap::get(name)`: case-insensitive header-name lookup. -/
def headerGet (headers : List (String × HeaderValue)) (name : String) :
    Option HeaderValue :=
  (headers.find? (fun p => headerNameEq p.1 name)).map (·.2)

/-- `actix_web::dev::ServiceResponse<B>`, restricted to what the claims
mention: status code (`response().status()`), headers and body. -/
structure ServiceResponse (B : Type) where
  status : Nat
  resp_headers : List (String × String)
  body : B
deriving DecidableEq, Repr

/-- `actix_web::Error`: `status_code` is what
`as_response_error().status_code()` returns; `payload` stands for the rest
of the error value (message, cause chain). -/
structure Err where
  status_code : Nat
  payload : String
deriving DecidableEq, Repr

/-- `futures::task::Poll`. -/
inductive Poll (α : Type) where
  | ready (a : α)
  | pending
deriving DecidableEq, Repr

/-- What the downstream stage `S` does when called: its outcome, plus the
`enduser.id` value it records through the `Span` handle retrieved from the
request's extensions, if it records one. -/
structure DownstreamResult (B : Type) where
  outcome : Except Err (ServiceResponse B)
  enduser_write : Option String
deriving Repr

/-- The downstream service `S : Service<Request = ServiceRequest, ...>`:
a readiness poll (`Nat` is an opaque poll context) and the call itself. -/
structure Downstream (B : Type) where
  poll_ready : Nat → Poll (Except Err Unit)
  run : ServiceRequest → DownstreamResult B

/-- `uuid::Uuid::new_v4()`: 128 random bits with the version nibble of
byte 6 forced to 4 and the top two bits of byte 8 forced to `10`
(big-endian byte 0 occupies bits 120..127). `random` is the entropy draw. -/
def Uuid.new_v4 (random : Nat) : Nat :=
  let r := random % 2 ^ 128
  let hi := r / 2 ^ 80
  let b6 := r / 2 ^ 72 % 256
  let mid := r / 2 ^ 64 % 256
  let b8 := r / 2 ^ 56 % 256
  let low := r % 2 ^ 56
  hi * 2 ^ 80 + (b6 % 16 + 64) * 2 ^ 72 + mid * 2 ^ 64 +
    (b8 % 64 + 128) * 2 ^ 56 + low

/-- The span built by `tracing::info_span!("Request", ...)` in `call`.
`http_status_code` and `enduser_id` are declared `tracing::field::Empty`
(unset); the other fields are fixed at creation. -/
structure Span where
  kind : String
  request_id : Nat
  http_status_code : Option Nat
  enduser_id : Option String
  service_name : String
  http_user_agent : String
  http_method : String
  http_target : String
  http_route : String
deriving DecidableEq, Repr

/-- `TracingLogger`: the middleware factory, holding the configuration. -/
structure TracingLogger where
  service_name : String
deriving DecidableEq, Repr

/-- `TracingLogger::new`. -/
def TracingLogger.new (service_name : String) : TracingLogger :=
  { service_name }

/-- `TracingLoggerMiddleware<S>` with `S` the downstream stage. -/
structure TracingLoggerMiddleware (B : Type) where
  service_name : String
  service : Downstream B

/-- `Transform::new_transform`: `ok(TracingLoggerMiddleware { ... })`.
`InitError = ()`; the returned `Ready` future is immediately resolved. -/
def TracingLogger.new_transform {B : Type} (t : TracingLogger)
    (service : Downstream B) : Except Unit (TracingLoggerMiddleware B) :=
  Except.ok { service_name := t.service_name, service := service }

/-- `Service::poll_ready` of the wrapper: `self.service.poll_ready(cx)`. -/
def TracingLoggerMiddleware.poll_ready {B : Type}
    (m : TracingLoggerMiddleware B) (cx : Nat) : Poll (Except Err Unit) :=
  m.service.poll_ready cx

/-- Observable steps of one `call`, in the order they happen. -/
inductive Event where
  | span_created (request_id : Nat)
  | extensions_inserted (request_id : Nat)
  | downstream_invoked
  | downstream_resolved
  | status_recorded (request_id : Nat) (code : Nat)
deriving DecidableEq, Repr

/-- The status-code derivation inside `inspect`: `Ok(response)` gives
`response.response().status()`, `Err(error)` gives
`error.as_response_error().status_code()`. -/
def statusCodeOf {B : Type} (o : Except Err (ServiceResponse B)) : Nat :=
  match o with
  | .ok response => response.status
  | .error e => e.status_code

/-- What one `call` produced: the outcome handed back to the caller, the
ordered event trace, the final state of the span (none when bypassed), and
the request value the downstream stage was invoked on. -/
structure CallResult (B : Type) where
  outcome : Except Err (ServiceResponse B)
  events : List Event
  span : Option Span
  downstream_request : ServiceRequest

/-- The span as constructed by the `info_span!` invocation in `call`,
before any field is recorded. -/
def TracingLoggerMiddleware.requestSpan {B : Type}
    (m : TracingLoggerMiddleware B) (entropy : Nat) (req : ServiceRequest) :
    Span :=
  let user_agent :=
    ((headerGet req.headers "User-Agent").bind (·.to_str)).getD ""
  let route := req.match_pattern.getD ""
  { kind := "request"
    request_id := Uuid.new_v4 entropy
    http_status_code := none
    enduser_id := none
    service_name := m.service_name
    http_user_agent := user_agent
    http_method := req.method
    http_target := req.path
    http_route := route }

/-- `Service::call` of the wrapper (`lib.rs` lines 147-191).  `entropy` is
the 128-bit random draw consumed by `Uuid::new_v4()`.  The delegated
future is modelled as resolved: the downstream outcome is observed by
`inspect`, the status recorded, and the outcome returned unchanged. -/
def TracingLoggerMiddleware.call {B : Type} (m : TracingLoggerMiddleware B)
    (entropy : Nat) (req : ServiceRequest) : CallResult B :=
  let path := req.path
  if path = "/healthz" then
    let res := m.service.run req
    { outcome := res.outcome
      events := [.downstream_invoked, .downstream_resolved]
      span := none
      downstream_request := req }
  else
    let span := m.requestSpan entropy req
    let reqWithSpan := { req with extensions := some span.request_id }
    let res := m.service.run reqWithSpan
    let enriched :=
      if reqWithSpan.extensions.isSome then
        { span with enduser_id := res.enduser_write }
      else span
    let status_code := statusCodeOf res.outcome
    { outcome := res.outcome
      events := [.span_created span.request_id,
                 .extensions_inserted span.request_id,
                 .downstream_invoked, .downstream_resolved,
                 .status_recorded span.request_id status_code]
      span := some { enriched with http_status_code := some status_code }
      downstream_request := reqWithSpan }

/-- Is this event a span creation? -/
def Event.isSpanCreated : Event → Bool
  | .span_created _ => true
  | _ => false

/-- Is this event a downstream invocation? -/
def Event.isInvoke : Event → Bool
  | .downstream_invoked => true
  | _ => false

/-- The sequence of values written to `http.status_code` along a trace. -/
def statusWrites (evs : List Event) : List Nat :=
  evs.filterMap (fun e =>
    match e with
    | .status_recorded _ c => some c
    | _ => none)

/-!
Asynchronous execution model for the instrumented future
(`self.service.call(req).instrument(span.clone())`, `lib.rs` line 180).
A future in flight is a sequence of poll steps; each step may emit
instrumentation events.  `tracing_futures::Instrumented::poll` enters the
stored span before polling the inner future and exits it afterwards, so
every event emitted during an inner poll sees that span on top of the
ambient scope stack, regardless of which step of which future the executor
runs next.
-/

/-- An instrumented future in flight: the id of the span wrapped around it
and the instrumentation events each remaining poll step will emit. -/
structure InFlight where
  span_id : Nat
  steps : List (List String)
deriving DecidableEq, Repr

/-- One poll of an `Instrumented` future.  The span is entered for the
duration of the inner poll (pushed on the ambient scope stack) and exited
afterwards; each event emitted by the inner poll is attributed to the span
at the top of the stack at that moment. -/
def Instrumented.poll (ambient : List Nat) (f : InFlight) :
    List (String × Option Nat) × InFlight :=
  match f.steps with
  | [] => ([], f)
  | emits :: rest =>
      (emits.map (fun e => (e, (f.span_id :: ambient).head?)),
       { f with steps := rest })

/-- An executor running several instrumented request futures concurrently.
`sched` names, in order, which future is polled next; between polls no
span is entered (empty ambient stack).  The result is the attributed event
log: (index of the future the event came from, event, attributed span). -/
def runSchedule (fs : List InFlight) : List Nat → List (Nat × String × Option Nat)
  | [] => []
  | k :: sched =>
    match fs.get? k with
    | none => runSchedule fs sched
    | some f =>
      let step := Instrumented.poll [] f
      step.1.map (fun p => (k, p.1, p.2)) ++ runSchedule (fs.set k step.2) sched

/-- The in-flight instrumented future that `call` creates for one request:
the downstream future's poll steps wrapped by `instrument(span.clone())`,
with the span built by `requestSpan`. -/
def TracingLoggerMiddleware.instrumentedFlight {B : Type}
    (m : TracingLoggerMiddleware B) (entropy : Nat) (req : ServiceRequest)
    (steps : List (List String)) : InFlight :=
  { span_id := (m.requestSpan entropy req).request_id, steps := steps }

/-- Sequential instrumented calls: the `i`-th call consumes the `i`-th
entropy draw `e i` for its `Uuid::new_v4()`. -/
def sequentialCalls {B : Type} (m : TracingLoggerMiddleware B)
    (e : Nat → Nat) (reqs : List ServiceRequest) : List (CallResult B) :=
  reqs.enum.map (fun p => m.call (e p.1) p.2)

/-- The `request_id` recorded by the `i`-th of a sequence of calls
(none when out of range or when the call was bypassed). -/
def nthRequestId {B : Type} (m : TracingLoggerMiddleware B)
    (e : Nat → Nat) (reqs : List ServiceRequest) (i : Nat) : Option Nat :=
  ((sequentialCalls m e reqs).get? i).bind (fun r => r.span.map (·.request_id))

/-- Decidable equality for outcomes, used to evaluate concrete runs. -/
def exceptDecEq {ε α : Type} [DecidableEq ε] [DecidableEq α] :
    (a b : Except ε α) → Decidable (a = b)
  | .ok a, .ok b =>
      if h : a = b then .isTrue (by rw [h]) else .isFalse (by simp [h])
  | .ok _, .error _ => .isFalse (by simp)
  | .error _, .ok _ => .isFalse (by simp)
  | .error a, .error b =>
      if h : a = b then .isTrue (by rw [h]) else .isFalse (by simp [h])

instance {ε α : Type} [DecidableEq ε] [DecidableEq α] :
    DecidableEq (Except ε α) := exceptDecEq

/-! Concrete fixtures used to exercise the definitions. -/

/-- A demonstration downstream stage: always ready, answers 200, body 7,
and records no `enduser.id`. -/
def demoStage : Downstream Nat :=
  { poll_ready := fun _ => .ready (.ok ())
    run := fun _ =>
      { outcome := .ok { status := 200, resp_headers := [], body := 7 }
        enduser_write := none } }

/-- A wrapper configured with service name "app" over `demoStage`. -/
def demoMiddleware : TracingLoggerMiddleware Nat :=
  { service_name := "app", service := demoStage }

/-- A health-check request. -/
def healthzReq : ServiceRequest :=
  { path := "/healthz", method := "GET", headers := []
    match_pattern := none, extensions := none }

/-- A matched application request with a User-Agent header. -/
def ordersReq : ServiceRequest :=
  { path := "/orders/42", method := "GET"
    headers := [("User-Agent", { to_str := some "curl" })]
    match_pattern := some "/orders/\x7bid\x7d", extensions := none }

end TracingActixWeb

namespace TracingActixWeb

/-- C1: a request is bypassed exactly when its path equals "/healthz"
(case-sensitive equality): on that path the call creates no span, extracts
no metadata, and returns precisely the downstream stage's outcome on the
unmodified request; on every other path a span is created. -/
theorem bypass_iff_healthz {B : Type} (m : TracingLoggerMiddleware B)
    (entropy : Nat) (req : ServiceRequest) :
    (req.path = "/healthz" →
      (m.call entropy req).span = none ∧
      (m.call entropy req).events.countP Event.isSpanCreated = 0 ∧
      (m.call entropy req).outcome = (m.service.run req).outcome ∧
      (m.call entropy req).downstream_request = req) ∧
    (req.path ≠ "/healthz" →
      (m.call entropy req).events.countP Event.isSpanCreated = 1) := by
  constructor
  · intro h
    simp [TracingLoggerMiddleware.call, h, Event.isSpanCreated]
  · intro h
    simp [TracingLoggerMiddleware.call, h, Event.isSpanCreated]

/-- Witness for C1 at concrete requests: "/healthz" is bypassed, a
non-health-check request is instrumented. -/
theorem bypass_iff_healthz_witness :
    ((demoMiddleware.call 0 healthzReq).span = none ∧
      (demoMiddleware.call 0 healthzReq).events.countP Event.isSpanCreated = 0 ∧
      (demoMiddleware.call 0 healthzReq).outcome =
        (demoMiddleware.service.run healthzReq).outcome ∧
      (demoMiddleware.call 0 healthzReq).downstream_request = healthzReq) ∧
    (demoMiddleware.call 0 ordersReq).events.countP Event.isSpanCreated = 1 :=
  ⟨(bypass_iff_healthz demoMiddleware 0 healthzReq).1 rfl,
   (bypass_iff_healthz demoMiddleware 0 ordersReq).2 (by decide)⟩

/-- On the instrumented path the final span is the created span with
`enduser.id` holding what downstream recorded through the stored handle
and `http.status_code` holding the derived status. -/
theorem call_span_eq {B : Type} (m : TracingLoggerMiddleware B)
    (entropy : Nat) (req : ServiceRequest) (h : req.path ≠ "/healthz") :
    (m.call entropy req).span =
      some { m.requestSpan entropy req with
        enduser_id :=
          (m.service.run (m.call entropy req).downstream_request).enduser_write
        http_status_code := some (statusCodeOf (m.call entropy req).outcome) } := by
  simp [TracingLoggerMiddleware.call, h]

/-- C2: every non-bypassed call creates exactly one span whose fields hold
the configured service name, the request's method and path, the User-Agent
header text (empty when the header is absent), and the matched route
pattern or "" when none was matched. -/
theorem instrumented_span_fields {B : Type} (m : TracingLoggerMiddleware B)
    (entropy : Nat) (req : ServiceRequest) (h : req.path ≠ "/healthz") :
    ∃ s, (m.call entropy req).span = some s ∧
      (m.call entropy req).events.countP Event.isSpanCreated = 1 ∧
      s.service_name = m.service_name ∧
      s.http_method = req.method ∧
      s.http_target = req.path ∧
      (headerGet req.headers "User-Agent" = none → s.http_user_agent = "") ∧
      (∀ v text, headerGet req.headers "User-Agent" = some v →
        v.to_str = some text → s.http_user_agent = text) ∧
      s.http_route = req.match_pattern.getD "" := by
  refine ⟨_, call_span_eq m entropy req h, ?_, ?_, ?_, ?_, ?_, ?_, ?_⟩
  · simp [TracingLoggerMiddleware.call, h, Event.isSpanCreated]
  · simp [TracingLoggerMiddleware.requestSpan]
  · simp [TracingLoggerMiddleware.requestSpan]
  · simp [TracingLoggerMiddleware.requestSpan]
  · intro hnone
    simp [TracingLoggerMiddleware.requestSpan, hnone]
  · intro v text hv htext
    simp [TracingLoggerMiddleware.requestSpan, hv, htext]
  · simp [TracingLoggerMiddleware.requestSpan]

/-- Witness for C2 at a concrete matched request with a User-Agent. -/
theorem instrumented_span_fields_witness :
    ∃ s, (demoMiddleware.call 0 ordersReq).span = some s ∧
      (demoMiddleware.call 0 ordersReq).events.countP Event.isSpanCreated = 1 ∧
      s.service_name = demoMiddleware.service_name ∧
      s.http_method = ordersReq.method ∧
      s.http_target = ordersReq.path ∧
      (headerGet ordersReq.headers "User-Agent" = none → s.http_user_agent = "") ∧
      (∀ v text, headerGet ordersReq.headers "User-Agent" = some v →
        v.to_str = some text → s.http_user_agent = text) ∧
      s.http_route = ordersReq.match_pattern.getD "" :=
  instrumented_span_fields demoMiddleware 0 ordersReq (by decide)

/-- C3: on every instrumented call `http.status_code` is unset at span
creation, stays unwritten on every trace prefix in which the downstream
call has not yet resolved, and over the whole call is written exactly once,
with the status derived from the outcome (response status on success, the
error's response-error status on failure); the final span carries exactly
that value. -/
theorem status_written_once_after_resolution {B : Type}
    (m : TracingLoggerMiddleware B) (entropy : Nat) (req : ServiceRequest)
    (h : req.path ≠ "/healthz") :
    (m.requestSpan entropy req).http_status_code = none ∧
    statusWrites (m.call entropy req).events =
      [statusCodeOf (m.call entropy req).outcome] ∧
    (∀ pre, pre <+: (m.call entropy req).events →
      Event.downstream_resolved ∉ pre → statusWrites pre = []) ∧
    (m.call entropy req).span.map (·.http_status_code) =
      some (some (statusCodeOf (m.call entropy req).outcome)) := by
  refine ⟨by simp [TracingLoggerMiddleware.requestSpan], ?_, ?_, ?_⟩
  · simp [TracingLoggerMiddleware.call, h, statusWrites]
  · intro pre hpre hnot
    obtain ⟨n, rfl⟩ : ∃ n, pre = ((m.call entropy req).events).take n :=
      ⟨pre.length, List.prefix_iff_eq_take.mp hpre⟩
    revert hnot
    simp only [TracingLoggerMiddleware.call, if_neg h]
    match n with
    | 0 => intro _; rfl
    | 1 => intro _; rfl
    | 2 => intro _; rfl
    | 3 => intro _; rfl
    | (k + 4) => intro hnot; exact absurd (by simp [List.take_succ_cons]) hnot
  · rw [call_span_eq m entropy req h]
    rfl

/-- Witness for C3 at a concrete instrumented request. -/
theorem status_written_once_after_resolution_witness :
    (demoMiddleware.requestSpan 0 ordersReq).http_status_code = none ∧
    statusWrites (demoMiddleware.call 0 ordersReq).events =
      [statusCodeOf (demoMiddleware.call 0 ordersReq).outcome] ∧
    (demoMiddleware.call 0 ordersReq).span.map (·.http_status_code) =
      some (some (statusCodeOf (demoMiddleware.call 0 ordersReq).outcome)) :=
  ⟨(status_written_once_after_resolution demoMiddleware 0 ordersReq (by decide)).1,
   (status_written_once_after_resolution demoMiddleware 0 ordersReq (by decide)).2.1,
   (status_written_once_after_resolution demoMiddleware 0 ordersReq (by decide)).2.2.2⟩

/-- C4: on every request, bypassed or instrumented, the wrapper returns
exactly the downstream stage's outcome on the request it forwarded, and it
invokes the downstream stage exactly once (no retry, no replacement). -/
theorem outcome_passthrough {B : Type} (m : TracingLoggerMiddleware B)
    (entropy : Nat) (req : ServiceRequest) :
    (m.call entropy req).outcome =
      (m.service.run (m.call entropy req).downstream_request).outcome ∧
    (m.call entropy req).events.countP Event.isInvoke = 1 := by
  by_cases h : req.path = "/healthz" <;>
    simp [TracingLoggerMiddleware.call, h, Event.isInvoke]

/-- C6: on every instrumented call the span handle is stored in the
request's extensions before the downstream stage is invoked — the
downstream stage sees the request extended with exactly the created span's
handle — the trace is the strictly ordered sequence span-creation →
context-attach → downstream-invoke → downstream-resolve → status-record,
and anything downstream records through the stored handle (e.g.
`enduser.id`) lands on this same span. -/
theorem span_attached_before_downstream {B : Type}
    (m : TracingLoggerMiddleware B) (entropy : Nat) (req : ServiceRequest)
    (h : req.path ≠ "/healthz") :
    (m.call entropy req).downstream_request =
      { req with extensions := some (m.requestSpan entropy req).request_id } ∧
    (m.call entropy req).events =
      [Event.span_created (m.requestSpan entropy req).request_id,
       Event.extensions_inserted (m.requestSpan entropy req).request_id,
       Event.downstream_invoked, Event.downstream_resolved,
       Event.status_recorded (m.requestSpan entropy req).request_id
         (statusCodeOf (m.call entropy req).outcome)] ∧
    (∀ u, (m.service.run (m.call entropy req).downstream_request).enduser_write
        = some u →
      (m.call entropy req).span.map (·.enduser_id) = some (some u)) := by
  refine ⟨?_, ?_, ?_⟩
  · simp [TracingLoggerMiddleware.call, h]
  · simp [TracingLoggerMiddleware.call, h]
  · intro u hu
    rw [call_span_eq m entropy req h]
    simp [hu]

/-- A downstream stage that enriches the span it finds in the request's
extensions with `enduser.id = "user-1"`. -/
def enduserStage : Downstream Nat :=
  { poll_ready := fun _ => .ready (.ok ())
    run := fun _ =>
      { outcome := .ok { status := 200, resp_headers := [], body := 7 }
        enduser_write := some "user-1" } }

/-- A wrapper over `enduserStage`. -/
def enduserMiddleware : TracingLoggerMiddleware Nat :=
  { service_name := "app", service := enduserStage }

/-- Witness for C6: the forwarded request holds the span handle, the trace
is in order, and the downstream `enduser.id` write reaches the span. -/
theorem span_attached_before_downstream_witness :
    (enduserMiddleware.call 0 ordersReq).downstream_request =
      { ordersReq with
        extensions := some (enduserMiddleware.requestSpan 0 ordersReq).request_id } ∧
    (enduserMiddleware.call 0 ordersReq).span.map (·.enduser_id) =
      some (some "user-1") :=
  ⟨(span_attached_before_downstream enduserMiddleware 0 ordersReq (by decide)).1,
   (span_attached_before_downstream enduserMiddleware 0 ordersReq (by decide)).2.2
     "user-1" rfl⟩

/-- C7: reading the User-Agent header never fails a request: when the
header is absent, or present but not decodable as text, the span records
`http.user_agent = ""` and the call still returns the downstream outcome
normally. -/
theorem user_agent_never_fails {B : Type} (m : TracingLoggerMiddleware B)
    (entropy : Nat) (req : ServiceRequest) (h : req.path ≠ "/healthz")
    (hua : headerGet req.headers "User-Agent" = none ∨
      ∃ v, headerGet req.headers "User-Agent" = some v ∧ v.to_str = none) :
    (m.call entropy req).span.map (·.http_user_agent) = some "" ∧
    (m.call entropy req).outcome =
      (m.service.run (m.call entropy req).downstream_request).outcome := by
  constructor
  · rw [call_span_eq m entropy req h]
    rcases hua with hnone | ⟨v, hv, htext⟩
    · simp [TracingLoggerMiddleware.requestSpan, hnone]
    · simp [TracingLoggerMiddleware.requestSpan, hv, htext]
  · simp [TracingLoggerMiddleware.call, h]

/-- A request with a User-Agent header whose bytes are not text. -/
def rawAgentReq : ServiceRequest :=
  { path := "/raw", method := "POST"
    headers := [("User-Agent", { to_str := none })]
    match_pattern := none, extensions := none }

/-- Witness for C7 at a request whose User-Agent bytes do not decode. -/
theorem user_agent_never_fails_witness :
    (demoMiddleware.call 0 rawAgentReq).span.map (·.http_user_agent) = some "" ∧
    (demoMiddleware.call 0 rawAgentReq).outcome =
      (demoMiddleware.service.run
        (demoMiddleware.call 0 rawAgentReq).downstream_request).outcome :=
  user_agent_never_fails demoMiddleware 0 rawAgentReq (by decide)
    (Or.inr ⟨{ to_str := none }, by decide, rfl⟩)

/-- C8: `new_transform` is infallible and deterministic: every call, for
every configuration and downstream stage, yields `Ok` of an independent
wrapper holding its own copy of the configured service name and wrapping
the given stage. -/
theorem new_transform_infallible {B : Type} (t : TracingLogger)
    (s : Downstream B) :
    t.new_transform s =
      Except.ok { service_name := t.service_name, service := s } := rfl

/-- C10: the wrapper's readiness poll is exactly the downstream stage's
readiness poll: no extra condition, queuing, or error, and downstream
readiness errors propagate unchanged. -/
theorem poll_ready_delegates {B : Type} (m : TracingLoggerMiddleware B)
    (cx : Nat) :
    m.poll_ready cx = m.service.poll_ready cx := rfl

/-- `new_v4` only touches bytes 6 and 8: the low 56 bits of the entropy
draw survive unchanged, so draws that differ there give distinct ids. -/
theorem new_v4_low_bits (r : Nat) : Uuid.new_v4 r % 2 ^ 56 = r % 2 ^ 56 := by
  simp only [Uuid.new_v4]
  omega

/-- Arithmetic shape of a v4 uuid: any value assembled from a forced
version nibble in byte 6 and forced variant bits in byte 8 shows version 4
(bits 76..79) and variant 10 (bits 62..63). -/
theorem uuid_nibble_decomp (hi v mid w low : Nat) (hv : v < 16)
    (hmid : mid < 256) (hw : w < 64) (hlow : low < 2 ^ 56) :
    (hi * 2 ^ 80 + (v + 64) * 2 ^ 72 + mid * 2 ^ 64 + (w + 128) * 2 ^ 56 + low)
        / 2 ^ 76 % 16 = 4 ∧
    (hi * 2 ^ 80 + (v + 64) * 2 ^ 72 + mid * 2 ^ 64 + (w + 128) * 2 ^ 56 + low)
        / 2 ^ 62 % 4 = 2 := by
  constructor
  · have h1 : hi * 2 ^ 80 + (v + 64) * 2 ^ 72 + mid * 2 ^ 64 +
        (w + 128) * 2 ^ 56 + low =
        (hi * 16 + 4) * 2 ^ 76 +
          (v * 2 ^ 72 + mid * 2 ^ 64 + (w + 128) * 2 ^ 56 + low) := by
      ring_nf
    rw [h1]
    omega
  · have h2 : hi * 2 ^ 80 + (v + 64) * 2 ^ 72 + mid * 2 ^ 64 +
        (w + 128) * 2 ^ 56 + low =
        (hi * 2 ^ 18 + (v + 64) * 2 ^ 10 + mid * 4 + 2) * 2 ^ 62 +
          (w * 2 ^ 56 + low) := by
      ring_nf
    rw [h2]
    omega

/-- `new_v4` sets the RFC 4122 version nibble (byte 6 high nibble = 4)
and variant bits (byte 8 top bits = 10). -/
theorem new_v4_version_bits (r : Nat) :
    Uuid.new_v4 r / 2 ^ 76 % 16 = 4 ∧ Uuid.new_v4 r / 2 ^ 62 % 4 = 2 := by
  simp only [Uuid.new_v4]
  exact uuid_nibble_decomp _ _ _ _ _
    (Nat.mod_lt _ (by norm_num)) (Nat.mod_lt _ (by norm_num))
    (Nat.mod_lt _ (by norm_num)) (Nat.mod_lt _ (by norm_num))

/-- The `i`-th of a sequence of instrumented calls records exactly the
version-4 uuid of its own (the `i`-th) entropy draw. -/
theorem nthRequestId_eq {B : Type} (m : TracingLoggerMiddleware B)
    (e : Nat → Nat) (reqs : List ServiceRequest)
    (h : ∀ r ∈ reqs, r.path ≠ "/healthz")
    (i : Nat) (hi : i < reqs.length) :
    nthRequestId m e reqs i = some (Uuid.new_v4 (e i)) := by
  cases hr : reqs.get? i with
  | none =>
    rw [List.get?_eq_none] at hr
    omega
  | some r =>
    have hmem : r ∈ reqs := List.get?_mem hr
    have hcall := call_span_eq m (e i) r (h r hmem)
    unfold nthRequestId sequentialCalls
    rw [List.get?_map, List.get?_enum, hr]
    simp [hcall, TracingLoggerMiddleware.requestSpan]

/-- C9: each instrumented call's `request_id` is the version-4 uuid built
from the fresh 128-bit entropy draw consumed at span creation (version
nibble 4, variant bits 10), and any two calls in a sequence whose entropy
draws differ anywhere in the preserved low bits get distinct ids — so
pairwise-distinct entropy yields zero collisions over any sample size. -/
theorem request_ids_fresh_and_distinct {B : Type}
    (m : TracingLoggerMiddleware B) (e : Nat → Nat)
    (reqs : List ServiceRequest)
    (h : ∀ r ∈ reqs, r.path ≠ "/healthz") :
    (∀ i, i < reqs.length →
      nthRequestId m e reqs i = some (Uuid.new_v4 (e i)) ∧
      Uuid.new_v4 (e i) / 2 ^ 76 % 16 = 4 ∧
      Uuid.new_v4 (e i) / 2 ^ 62 % 4 = 2) ∧
    (∀ i j, i < reqs.length → j < reqs.length →
      e i % 2 ^ 56 ≠ e j % 2 ^ 56 →
      nthRequestId m e reqs i ≠ nthRequestId m e reqs j) := by
  refine ⟨fun i hi => ⟨nthRequestId_eq m e reqs h i hi, new_v4_version_bits (e i)⟩,
    fun i j hi hj hne heq => hne ?_⟩
  rw [nthRequestId_eq m e reqs h i hi, nthRequestId_eq m e reqs h j hj] at heq
  have : Uuid.new_v4 (e i) = Uuid.new_v4 (e j) := by injection heq
  calc e i % 2 ^ 56 = Uuid.new_v4 (e i) % 2 ^ 56 := (new_v4_low_bits (e i)).symm
    _ = Uuid.new_v4 (e j) % 2 ^ 56 := by rw [this]
    _ = e j % 2 ^ 56 := new_v4_low_bits (e j)

/-- Witness for C9: two sequential calls with distinct entropy draws
produce distinct, correctly versioned request ids. -/
theorem request_ids_fresh_and_distinct_witness :
    (nthRequestId demoMiddleware (fun n => n) [ordersReq, ordersReq] 0 =
        some (Uuid.new_v4 0) ∧
      Uuid.new_v4 0 / 2 ^ 76 % 16 = 4 ∧ Uuid.new_v4 0 / 2 ^ 62 % 4 = 2) ∧
    nthRequestId demoMiddleware (fun n => n) [ordersReq, ordersReq] 0 ≠
      nthRequestId demoMiddleware (fun n => n) [ordersReq, ordersReq] 1 :=
  ⟨(request_ids_fresh_and_distinct demoMiddleware (fun n => n)
      [ordersReq, ordersReq] (by decide)).1 0 (by decide),
   (request_ids_fresh_and_distinct demoMiddleware (fun n => n)
      [ordersReq, ordersReq] (by decide)).2 0 1 (by decide) (by decide)
      (by decide)⟩

/-- Each poll of an `Instrumented` future leaves its span id unchanged. -/
theorem poll_preserves_span_id (ambient : List Nat) (f : InFlight) :
    (Instrumented.poll ambient f).2.span_id = f.span_id := by
  cases h : f.steps <;> simp [Instrumented.poll, h]

/-- Every event emitted during a poll of an `Instrumented` future is
attributed to that future's own span, whatever the ambient stack was. -/
theorem poll_attributes_own_span (ambient : List Nat) (f : InFlight)
    (p : String × Option Nat) (hp : p ∈ (Instrumented.poll ambient f).1) :
    p.2 = some f.span_id := by
  cases h : f.steps with
  | nil => simp [Instrumented.poll, h] at hp
  | cons emits rest =>
    simp only [Instrumented.poll, h, List.head?_cons, List.mem_map] at hp
    obtain ⟨e, _, rfl⟩ := hp
    rfl

/-- Scheduler-independence of attribution: in any interleaved execution,
every logged event carries the span id of the future it came from. -/
theorem runSchedule_attribution (sched : List Nat) :
    ∀ (fs : List InFlight) (k : Nat) (ev : String) (sid : Option Nat),
      (k, ev, sid) ∈ runSchedule fs sched →
      ∃ f, fs.get? k = some f ∧ sid = some f.span_id := by
  induction sched with
  | nil =>
    intro fs k ev sid hmem
    simp [runSchedule] at hmem
  | cons a sched ih =>
    intro fs k ev sid hmem
    rw [runSchedule] at hmem
    cases hfa : fs.get? a with
    | none =>
      rw [hfa] at hmem
      exact ih fs k ev sid hmem
    | some f =>
      rw [hfa] at hmem
      rcases List.mem_append.mp hmem with hmap | hrec
      · obtain ⟨p, hp, heq⟩ := List.mem_map.mp hmap
        obtain ⟨rfl, rfl, rfl⟩ : a = k ∧ p.1 = ev ∧ p.2 = sid := by
          refine ⟨congrArg Prod.fst heq, ?_, ?_⟩
          · exact congrArg (fun q => q.2.1) heq
          · exact congrArg (fun q => q.2.2) heq
        exact ⟨f, hfa, poll_attributes_own_span [] f p hp⟩
      · obtain ⟨f2, hf2, hsid⟩ := ih _ k ev sid hrec
        by_cases hak : a = k
        · subst hak
          have hlen : a < fs.length := (List.get?_eq_some.mp hfa).1
          rw [List.get?_set_eq_of_lt _ hlen] at hf2
          refine ⟨f, hfa, ?_⟩
          obtain rfl : (Instrumented.poll [] f).2 = f2 := by
            injection hf2
          rw [hsid, poll_preserves_span_id]
        · rw [List.get?_set_ne _ _ hak] at hf2
          exact ⟨f2, hf2, hsid⟩

/-- C5: the downstream future created for an instrumented request runs
every one of its poll steps inside its own request span's scope — under
any interleaving of concurrently in-flight instrumented requests, every
instrumentation event a request's downstream work emits is attributed to
that request's span, never to a concurrent request's span. -/
theorem downstream_attributed_to_own_span {B : Type}
    (m : TracingLoggerMiddleware B)
    (params : List (Nat × ServiceRequest × List (List String)))
    (sched : List Nat) (k : Nat) (ev : String) (sid : Option Nat)
    (hmem : (k, ev, sid) ∈ runSchedule
      (params.map (fun q => m.instrumentedFlight q.1 q.2.1 q.2.2)) sched) :
    ∃ q, params.get? k = some q ∧
      sid = some ((m.requestSpan q.1 q.2.1).request_id) := by
  obtain ⟨f, hf, hsid⟩ := runSchedule_attribution sched _ k ev sid hmem
  rw [List.get?_map] at hf
  cases hq : params.get? k with
  | none => rw [hq] at hf; simp at hf
  | some q =>
    rw [hq] at hf
    obtain rfl : m.instrumentedFlight q.1 q.2.1 q.2.2 = f := by
      injection hf
    exact ⟨q, rfl, hsid⟩

/-- Witness for C5: one instrumented request polled once; its emitted
event is attributed to its own span. -/
theorem downstream_attributed_to_own_span_witness :
    ∃ q, [((0 : Nat), ordersReq, [["db.query"]])].get? 0 = some q ∧
      some (Uuid.new_v4 0) =
        some ((demoMiddleware.requestSpan q.1 q.2.1).request_id) :=
  downstream_attributed_to_own_span demoMiddleware
    [((0 : Nat), ordersReq, [["db.query"]])] [0] 0 "db.query"
    (some (Uuid.new_v4 0)) (by decide)

end TracingActixWeb
